import Mathlib

/-!
Verification of the NOVA-Backend email open-tracking service (`app.py`).

The development shallowly embeds the request-handling logic of the tracking
endpoint `track_email`, the dashboard timestamp formatter `fmt`, and the
surrounding data paths.  Strings are handled through their underlying
`List Char`; Python's `str.replace`, `str.strip`, `str.rstrip` and substring
containment (`in`) are embedded as executable list functions.
-/

/-- Python `str.replace(ab, '')` specialised to a two-character pattern
`a,b`: scan left to right, removing non-overlapping occurrences.
Embeds `campaign_id.replace('F1', '')` and friends (app.py line 144). -/
def replace2 (a b : Char) : List Char → List Char
  | [] => []
  | [c] => [c]
  | c :: d :: rest =>
    if c = a ∧ d = b then replace2 a b rest
    else c :: replace2 a b (d :: rest)

/-- Substring containment of a two-character pattern `a,b`, i.e. Python's
`'F1' in campaign_id` (app.py lines 131-137). -/
def occurs2 (a b : Char) : List Char → Bool
  | [] => false
  | [_] => false
  | c :: d :: rest => (c = a && d = b) || occurs2 a b (d :: rest)

/-- Characters removed by Python `str.strip()`: the exact set of code
points for which `str.isspace()` is true — `\t \n \x0b \x0c \r`,
`\x1c`-`\x1f`, space, `\x85`, `\xa0`, and the Unicode space/line/paragraph
separators. -/
def isPySpace (c : Char) : Bool :=
  [0x09, 0x0a, 0x0b, 0x0c, 0x0d, 0x1c, 0x1d, 0x1e, 0x1f, 0x20,
   0x85, 0xa0, 0x1680, 0x2000, 0x2001, 0x2002, 0x2003, 0x2004, 0x2005,
   0x2006, 0x2007, 0x2008, 0x2009, 0x200a, 0x2028, 0x2029, 0x202f,
   0x205f, 0x3000].contains c.toNat

/-- Remove the longest trailing run of characters satisfying `p`
(the right half of `str.strip` / all of `str.rstrip`). -/
def dropTrailing (p : Char → Bool) (s : List Char) : List Char :=
  (s.reverse.dropWhile p).reverse

/-- Python `str.strip()`: drop leading and trailing whitespace. -/
def stripWs (s : List Char) : List Char :=
  dropTrailing isPySpace (s.dropWhile isPySpace)

/-- Python `str.rstrip('/')` (app.py line 146). -/
def rstripSlash (s : List Char) : List Char :=
  dropTrailing (fun c => c = '/') s

/-- The four marker removals of app.py line 144, applied in source order
(`F1` first, then `F2`, `F3`, `F4`). -/
def removeMarkers (s : List Char) : List Char :=
  replace2 'F' '4' (replace2 'F' '3' (replace2 'F' '2' (replace2 'F' '1' s)))

/-- `base_campaign_id` derivation (app.py lines 144-146): remove the
follow-up markers, strip surrounding whitespace, strip trailing slashes. -/
def baseCampaignIdL (s : List Char) : List Char :=
  rstripSlash (stripWs (removeMarkers s))

/-- String-level wrapper for the `base_campaign_id` derivation. -/
def baseCampaignId (s : String) : String :=
  ⟨baseCampaignIdL s.data⟩

/-- `'F' ++ d in s` for a marker digit `d`, on strings. -/
def containsMarker (s : String) (d : Char) : Bool :=
  occurs2 'F' d s.data

/-- Follow-up stage detection (app.py lines 130-138): the if/elif chain
testing `'F1' in campaign_id`, ..., `'F4' in campaign_id` in order. -/
def detectFollowup (campaign_id : String) : Option String :=
  if containsMarker campaign_id '1' then some "F1"
  else if containsMarker campaign_id '2' then some "F2"
  else if containsMarker campaign_id '3' then some "F3"
  else if containsMarker campaign_id '4' then some "F4"
  else none

/-- True iff any of the four uppercase follow-up markers occurs in `s`. -/
def hasMarker (s : String) : Bool :=
  containsMarker s '1' || containsMarker s '2' ||
  containsMarker s '3' || containsMarker s '4'

/-! ### Structural lemmas about the stripping primitives -/

/-- If the two-character pattern does not occur in `s`, `replace2` is the
identity on `s`. -/
theorem replace2_of_not_occurs (a b : Char) :
    ∀ s : List Char, occurs2 a b s = false → replace2 a b s = s := by
  intro s
  induction s with
  | nil => intro _; rfl
  | cons c t ih =>
    intro h
    cases t with
    | nil => rfl
    | cons d t2 =>
      rw [occurs2, Bool.or_eq_false_iff] at h
      obtain ⟨h1, h2⟩ := h
      rw [replace2, if_neg, ih h2]
      intro hcd
      rw [hcd.1, hcd.2] at h1
      simp at h1

/-- The head of `dropWhile p l`, when present, does not satisfy `p`. -/
theorem head_dropWhile_false (p : Char → Bool) (l : List Char) (c : Char)
    (h : (l.dropWhile p).head? = some c) : p c = false := by
  have h2 := List.head?_dropWhile_not p l
  rw [h] at h2
  exact h2

/-- `dropWhile p` is the identity when the head does not satisfy `p`. -/
theorem dropWhile_eq_self_of_head (p : Char → Bool) (l : List Char)
    (h : ∀ c, l.head? = some c → p c = false) : l.dropWhile p = l := by
  cases l with
  | nil => rfl
  | cons c t => rw [List.dropWhile_cons, if_neg]; simp [h c rfl]

/-- The last element of `dropTrailing p s`, when present, does not
satisfy `p`. -/
theorem getLast_dropTrailing_false (p : Char → Bool) (s : List Char) (c : Char)
    (h : (dropTrailing p s).getLast? = some c) : p c = false := by
  unfold dropTrailing at h
  rw [List.getLast?_reverse] at h
  exact head_dropWhile_false p s.reverse c h

/-- `dropTrailing p` is the identity when the last element does not
satisfy `p`. -/
theorem dropTrailing_eq_self (p : Char → Bool) (s : List Char)
    (h : ∀ c, s.getLast? = some c → p c = false) : dropTrailing p s = s := by
  unfold dropTrailing
  rw [dropWhile_eq_self_of_head, List.reverse_reverse]
  intro c hc
  rw [List.head?_reverse] at hc
  exact h c hc

/-- `dropTrailing` keeps the head of the list when the result is
nonempty. -/
theorem head_dropTrailing_eq (p : Char → Bool) (s : List Char) (c : Char)
    (h : (dropTrailing p s).head? = some c) : s.head? = some c := by
  obtain ⟨t, ht⟩ := List.dropWhile_suffix (l := s.reverse) p
  have hs : dropTrailing p s ++ t.reverse = s := by
    have h2 := congrArg List.reverse ht
    rw [List.reverse_append, List.reverse_reverse] at h2
    exact h2
  have hne : dropTrailing p s ≠ [] := by
    intro hn
    rw [hn] at h
    cases h
  rw [← hs, List.head?_append_of_ne_nil _ hne]
  exact h

/-- The derived base id never starts with whitespace. -/
theorem baseCampaignIdL_head_not_space (s : List Char) (c : Char)
    (h : (baseCampaignIdL s).head? = some c) : isPySpace c = false := by
  unfold baseCampaignIdL rstripSlash at h
  have h2 := head_dropTrailing_eq _ _ _ h
  unfold stripWs at h2
  have h3 := head_dropTrailing_eq _ _ _ h2
  exact head_dropWhile_false _ _ _ h3

/-- The derived base id never ends with a slash. -/
theorem baseCampaignIdL_getLast_not_slash (s : List Char) (c : Char)
    (h : (baseCampaignIdL s).getLast? = some c) : c ≠ '/' := by
  unfold baseCampaignIdL rstripSlash at h
  have h2 := getLast_dropTrailing_false _ _ _ h
  simpa using h2

/-! ### Claim C1: idempotence of the base_campaign_id derivation -/

/-- C1 counterexample: the claim "the derivation is idempotent for every
campaign_id string" is false.  For the campaign id "FF11" one pass of
`replace('F1','')` leaves the fresh occurrence "F1" behind, so a second
pass removes it: the derivation maps "FF11" to "F1", and "F1" to "". -/
theorem base_campaign_id_not_idem :
    ¬ (baseCampaignId (baseCampaignId "FF11") = baseCampaignId "FF11") := by
  decide

/-- C1 (amended): the base_campaign_id derivation is idempotent for every
campaign_id whose derived id contains no follow-up marker and does not end
in a whitespace character (one-pass replacement can leave fresh marker
occurrences behind, and stripping trailing slashes can expose trailing
whitespace; absent those two effects the derivation is a no-op on its own
result). -/
theorem base_campaign_id_idem (s : String)
    (hm : hasMarker (baseCampaignId s) = false)
    (hw : ∀ c, (baseCampaignId s).data.getLast? = some c → isPySpace c = false) :
    baseCampaignId (baseCampaignId s) = baseCampaignId s := by
  have hm4 : occurs2 'F' '1' (baseCampaignIdL s.data) = false ∧
      occurs2 'F' '2' (baseCampaignIdL s.data) = false ∧
      occurs2 'F' '3' (baseCampaignIdL s.data) = false ∧
      occurs2 'F' '4' (baseCampaignIdL s.data) = false := by
    have hm2 : hasMarker ⟨baseCampaignIdL s.data⟩ = false := hm
    rw [hasMarker] at hm2
    simp only [Bool.or_eq_false_iff] at hm2
    exact ⟨hm2.1.1.1, hm2.1.1.2, hm2.1.2, hm2.2⟩
  have hb : baseCampaignIdL (baseCampaignIdL s.data) = baseCampaignIdL s.data := by
    have hrm : removeMarkers (baseCampaignIdL s.data) = baseCampaignIdL s.data := by
      rw [removeMarkers,
        replace2_of_not_occurs _ _ _ hm4.1,
        replace2_of_not_occurs _ _ _ hm4.2.1,
        replace2_of_not_occurs _ _ _ hm4.2.2.1,
        replace2_of_not_occurs _ _ _ hm4.2.2.2]
    have hdw : (baseCampaignIdL s.data).dropWhile isPySpace = baseCampaignIdL s.data :=
      dropWhile_eq_self_of_head _ _ (fun c hc => baseCampaignIdL_head_not_space s.data c hc)
    have hdt : dropTrailing isPySpace (baseCampaignIdL s.data) = baseCampaignIdL s.data :=
      dropTrailing_eq_self _ _ (fun c hc => hw c hc)
    have hrs : rstripSlash (baseCampaignIdL s.data) = baseCampaignIdL s.data := by
      rw [rstripSlash]
      refine dropTrailing_eq_self _ _ (fun c hc => ?_)
      simpa using baseCampaignIdL_getLast_not_slash s.data c hc
    calc baseCampaignIdL (baseCampaignIdL s.data)
        = rstripSlash (stripWs (removeMarkers (baseCampaignIdL s.data))) := rfl
      _ = rstripSlash (stripWs (baseCampaignIdL s.data)) := by rw [hrm]
      _ = rstripSlash (baseCampaignIdL s.data) := by rw [stripWs, hdw, hdt]
      _ = baseCampaignIdL s.data := hrs
  exact congrArg String.mk hb

/-- C1 witness: a concrete campaign id satisfying the amended hypotheses,
with the idempotence conclusion obtained from `base_campaign_id_idem`. -/
theorem base_campaign_id_idem_witness :
    baseCampaignId (baseCampaignId "ab F1cd/") = baseCampaignId "ab F1cd/" :=
  base_campaign_id_idem "ab F1cd/" (by decide)
    (fun c hc => by
      have h2 : (baseCampaignId "ab F1cd/").data.getLast? = some 'd' := rfl
      rw [h2] at hc
      cases hc
      decide)

/-! ### The event recorder (track_email, app.py lines 124-219)

A Supabase row or write payload is a key-value dictionary; the model keeps
the keys as strings because claim C2 is about the exact field names the
recorder writes. -/

/-- A JSON-ish cell value as stored in the `Mails` table. -/
inductive Value where
  | str : String → Value
  | bool : Bool → Value
  | int : Int → Value
deriving DecidableEq

/-- A row (or write payload): association list of column name to value. -/
abbrev FieldMap := List (String × Value)

/-- Dictionary read, Python `record.get(k)` (first binding wins). -/
def getField : FieldMap → String → Option Value
  | [], _ => none
  | (k2, v) :: rest, k => if k2 = k then some v else getField rest k

/-- Set one column of a row (replace an existing binding or append). -/
def setField : FieldMap → String → Value → FieldMap
  | [], k, v => [(k, v)]
  | (k2, v2) :: rest, k, v =>
    if k2 = k then (k, v) :: rest else (k2, v2) :: setField rest k v

/-- Row after a Supabase `update(data)`: every listed column is set. -/
def applyUpdate (r : FieldMap) (d : FieldMap) : FieldMap :=
  d.foldl (fun acc kv => setField acc kv.1 kv.2) r

/-- ASCII lowercasing of one character (all `str.lower()` receives here is
"F1".."F4", so the ASCII range is exact). -/
def asciiLower (c : Char) : Char :=
  if 'A' ≤ c ∧ c ≤ 'Z' then Char.ofNat (c.toNat + 32) else c

/-- Python `str.lower()` on the follow-up tag. -/
def pyLower (s : String) : String := ⟨s.data.map asciiLower⟩

/-- Python `matched_record.get('open_count') or 0` (app.py line 168): a
missing or null column, and the falsy count 0, all give 0; the int column
otherwise gives its value. -/
def pyOrZero : Option Value → Int
  | some (Value.int n) => n
  | _ => 0

/-- Python `first_opened is None or first_opened == ''` (app.py line 178). -/
def isNoneOrEmpty : Option Value → Bool
  | none => true
  | some (Value.str s) => s = ""
  | some _ => false

/-- The single write the recorder performs against the `Mails` table. -/
inductive WriteOp where
  | update : FieldMap → WriteOp
  | insert : FieldMap → WriteOp
deriving DecidableEq

/-- Payload carried by a write. -/
def payloadOf : WriteOp → FieldMap
  | WriteOp.update d => d
  | WriteOp.insert d => d

/-- Follow-up update payload (app.py lines 159-164): the status field name
is built from the UPPERCASE tag (`f'\x7bfollowup_type\x7d_track'`), the
timestamp field name from the lowercased tag. -/
def followupUpdateData (ft now : String) : FieldMap :=
  [(ft ++ "_track", Value.str "Opened"),
   (pyLower ft ++ "_opened_at", Value.str now)]

/-- Main-email update payload (app.py lines 166-179). -/
def mainUpdateData (r : FieldMap) (now : String) : FieldMap :=
  let current_count := pyOrZero (getField r "open_count")
  let d := [("status", Value.bool true),
            ("open_count", Value.int (current_count + 1)),
            ("last_opened_at", Value.str now)]
  if isNoneOrEmpty (getField r "first_opened_at")
  then d ++ [("first_opened_at", Value.str now)]
  else d

set_option linter.unusedVariables false in
/-- The recorder's write decision (app.py lines 126-213): given the raw url
fields, the current time string, and the result of the lookup on
(email, base_campaign_id), produce the single write performed.  The
`ip_address` argument mirrors `request.remote_addr` read on line 127; the
source never uses it afterwards, which is what claim C3 is about. -/
def recordOpen (ip_address email campaign_id now : String)
    (existing : Option FieldMap) : WriteOp :=
  let followup_type := detectFollowup campaign_id
  let base := baseCampaignId campaign_id
  match existing with
  | some r =>
    match followup_type with
    | some ft => WriteOp.update (followupUpdateData ft now)
    | none => WriteOp.update (mainUpdateData r now)
  | none =>
    match followup_type with
    | some ft =>
      WriteOp.insert ([("email", Value.str email),
        ("campaign_id", Value.str base)] ++ followupUpdateData ft now)
    | none =>
      WriteOp.insert [("email", Value.str email),
        ("campaign_id", Value.str base),
        ("status", Value.bool true),
        ("open_count", Value.int 1),
        ("first_opened_at", Value.str now),
        ("last_opened_at", Value.str now)]

/-! ### Dictionary lemmas -/

/-- Reading the column just set returns the new value. -/
theorem getField_setField_self (r : FieldMap) (k : String) (v : Value) :
    getField (setField r k v) k = some v := by
  induction r with
  | nil => simp [setField, getField]
  | cons kv rest ih =>
    obtain ⟨k2, v2⟩ := kv
    by_cases h : k2 = k
    · simp [setField, getField, h]
    · simp [setField, getField, h, ih]

/-- Setting one column leaves every other column unchanged. -/
theorem getField_setField_ne (r : FieldMap) (k : String) (v : Value)
    (k2 : String) (h : k2 ≠ k) :
    getField (setField r k v) k2 = getField r k2 := by
  have hne : ¬ (k = k2) := fun he => h he.symm
  induction r with
  | nil => simp [setField, getField, hne]
  | cons kv rest ih =>
    obtain ⟨k3, v3⟩ := kv
    by_cases h3 : k3 = k
    · subst h3
      simp [setField, getField, hne]
    · by_cases h2 : k3 = k2
      · simp [setField, getField, h3, h2, h]
      · simp [setField, getField, h3, h2, ih]

/-- Applying a two-field update leaves any third column unchanged. -/
theorem getField_two_sets_ne (r : FieldMap) (k1 k2 kq : String) (v1 v2 : Value)
    (h1 : kq ≠ k1) (h2 : kq ≠ k2) :
    getField (applyUpdate r [(k1, v1), (k2, v2)]) kq = getField r kq := by
  show getField (setField (setField r k1 v1) k2 v2) kq = getField r kq
  rw [getField_setField_ne _ _ _ _ h2, getField_setField_ne _ _ _ _ h1]

/-- The detected follow-up tag is always one of the four markers. -/
theorem detectFollowup_cases (c : String) (ft : String)
    (h : detectFollowup c = some ft) :
    ft = "F1" ∨ ft = "F2" ∨ ft = "F3" ∨ ft = "F4" := by
  unfold detectFollowup at h
  split_ifs at h <;> simp_all

/-! ### Claim C2: fields written by a follow-up update -/

/-- C2 counterexample: the claim says the follow-up status flag is written
to the lowercase field `f1_track`; the code builds the field name from the
UPPERCASE tag, so for campaign "campF1" on an existing row the update
payload keys are `F1_track` and `f1_opened_at` — `f1_track` is not among
them. -/
theorem followup_track_field_is_uppercase :
    List.map Prod.fst (payloadOf (recordOpen "203.0.113.9" "alice@x.com"
        "campF1" "2024-01-01T00:00:00" (some [("campaign_id", Value.str "camp")])))
      = ["F1_track", "f1_opened_at"] ∧
    ¬ ("f1_track" ∈ List.map Prod.fst (payloadOf (recordOpen "203.0.113.9"
        "alice@x.com" "campF1" "2024-01-01T00:00:00"
        (some [("campaign_id", Value.str "camp")])))) := by
  decide

/-- C2 (amended): for every tracking request on an existing row whose
campaign_id carries a follow-up marker Fn, the update writes exactly two
fields: `F{n}_track` (UPPERCASE F, from the tag itself) set to "Opened",
and `f{n}_opened_at` (lowercased tag) set to the current time. -/
theorem followup_update_fields (ip e c now : String) (r : FieldMap)
    (ft : String) (hft : detectFollowup c = some ft) :
    ∃ d, recordOpen ip e c now (some r) = WriteOp.update d ∧
      List.map Prod.fst d = [ft ++ "_track", pyLower ft ++ "_opened_at"] ∧
      List.map Prod.snd d = [Value.str "Opened", Value.str now] ∧
      ((ft = "F1" ∧ pyLower ft = "f1") ∨ (ft = "F2" ∧ pyLower ft = "f2") ∨
       (ft = "F3" ∧ pyLower ft = "f3") ∨ (ft = "F4" ∧ pyLower ft = "f4")) := by
  refine ⟨followupUpdateData ft now, ?_, ?_, ?_, ?_⟩
  · simp [recordOpen, hft]
  · simp [followupUpdateData]
  · simp [followupUpdateData]
  · rcases detectFollowup_cases c ft hft with h | h | h | h <;> subst h
    · exact Or.inl ⟨rfl, by decide⟩
    · exact Or.inr (Or.inl ⟨rfl, by decide⟩)
    · exact Or.inr (Or.inr (Or.inl ⟨rfl, by decide⟩))
    · exact Or.inr (Or.inr (Or.inr ⟨rfl, by decide⟩))

/-- C2 witness: concrete instance of `followup_update_fields` for the
campaign "campF2" on an existing row. -/
theorem followup_update_fields_witness :
    ∃ d, recordOpen "1.2.3.4" "bob@x.com" "campF2" "2024-05-05T01:02:03"
        (some [("status", Value.bool true)]) = WriteOp.update d ∧
      List.map Prod.fst d = ["F2" ++ "_track", pyLower "F2" ++ "_opened_at"] ∧
      List.map Prod.snd d = [Value.str "Opened", Value.str "2024-05-05T01:02:03"] ∧
      ((("F2" : String) = "F1" ∧ pyLower "F2" = "f1") ∨
       (("F2" : String) = "F2" ∧ pyLower "F2" = "f2") ∨
       (("F2" : String) = "F3" ∧ pyLower "F2" = "f3") ∨
       (("F2" : String) = "F4" ∧ pyLower "F2" = "f4")) :=
  followup_update_fields "1.2.3.4" "bob@x.com" "campF2" "2024-05-05T01:02:03"
    [("status", Value.bool true)] "F2" (by decide)

/-! ### Claim C3: ip_address is read but never stored -/

/-- C3: the code reads `request.remote_addr` (app.py line 127) but no
update or insert payload ever contains an `ip_address` field — for every
request, whatever the lookup returned, the written row has no
`ip_address` key.  This refutes the claim (and §3 of the spec) that the
requester's address is recorded opportunistically; the dashboards even
select an `ip_address` column (app.py lines 298, 337), so the dangling
read on line 127 is best explained as a slip. -/
theorem ip_address_never_written (ip e c now : String) (ex : Option FieldMap) :
    ¬ ("ip_address" ∈ List.map Prod.fst (payloadOf (recordOpen ip e c now ex))) := by
  cases ex with
  | none =>
    cases hd : detectFollowup c with
    | none => simp [recordOpen, hd, payloadOf]
    | some ft =>
      rcases detectFollowup_cases c ft hd with h | h | h | h <;> subst h <;>
        simp [recordOpen, hd, payloadOf, followupUpdateData,
          show (pyLower "F1" ++ "_opened_at" : String) = "f1_opened_at" from by decide,
          show (pyLower "F2" ++ "_opened_at" : String) = "f2_opened_at" from by decide,
          show (pyLower "F3" ++ "_opened_at" : String) = "f3_opened_at" from by decide,
          show (pyLower "F4" ++ "_opened_at" : String) = "f4_opened_at" from by decide]
  | some r =>
    cases hd : detectFollowup c with
    | none =>
      simp only [recordOpen, hd, payloadOf, mainUpdateData]
      split <;> simp
    | some ft =>
      rcases detectFollowup_cases c ft hd with h | h | h | h <;> subst h <;>
        simp [recordOpen, hd, payloadOf, followupUpdateData,
          show (pyLower "F1" ++ "_opened_at" : String) = "f1_opened_at" from by decide,
          show (pyLower "F2" ++ "_opened_at" : String) = "f2_opened_at" from by decide,
          show (pyLower "F3" ++ "_opened_at" : String) = "f3_opened_at" from by decide,
          show (pyLower "F4" ++ "_opened_at" : String) = "f4_opened_at" from by decide]

/-! ### Claim C4: a follow-up open never touches the main-email fields -/

/-- C4: on an existing row, a follow-up open updates only the follow-up
track/timestamp pair; the row's `status`, `open_count`, `first_opened_at`
and `last_opened_at` read the same after the update as before. -/
theorem followup_preserves_main_fields (ip e c now : String) (r : FieldMap)
    (ft : String) (hft : detectFollowup c = some ft) :
    ∃ d, recordOpen ip e c now (some r) = WriteOp.update d ∧
      getField (applyUpdate r d) "status" = getField r "status" ∧
      getField (applyUpdate r d) "open_count" = getField r "open_count" ∧
      getField (applyUpdate r d) "first_opened_at" = getField r "first_opened_at" ∧
      getField (applyUpdate r d) "last_opened_at" = getField r "last_opened_at" := by
  refine ⟨followupUpdateData ft now, by simp [recordOpen, hft], ?_, ?_, ?_, ?_⟩ <;>
    rcases detectFollowup_cases c ft hft with h | h | h | h <;> subst h <;>
      exact getField_two_sets_ne r _ _ _ _ _ (by decide) (by decide)

/-- C4 witness: concrete instance of `followup_preserves_main_fields` for
campaign "campF3" on a row that has main-email fields populated. -/
theorem followup_preserves_main_fields_witness :
    ∃ d, recordOpen "9.9.9.9" "carol@x.com" "campF3" "2024-06-01T00:00:00"
        (some [("status", Value.bool true), ("open_count", Value.int 5)])
        = WriteOp.update d ∧
      getField (applyUpdate [("status", Value.bool true), ("open_count", Value.int 5)] d)
          "status"
        = getField [("status", Value.bool true), ("open_count", Value.int 5)] "status" ∧
      getField (applyUpdate [("status", Value.bool true), ("open_count", Value.int 5)] d)
          "open_count"
        = getField [("status", Value.bool true), ("open_count", Value.int 5)] "open_count" ∧
      getField (applyUpdate [("status", Value.bool true), ("open_count", Value.int 5)] d)
          "first_opened_at"
        = getField [("status", Value.bool true), ("open_count", Value.int 5)] "first_opened_at" ∧
      getField (applyUpdate [("status", Value.bool true), ("open_count", Value.int 5)] d)
          "last_opened_at"
        = getField [("status", Value.bool true), ("open_count", Value.int 5)] "last_opened_at" :=
  followup_preserves_main_fields "9.9.9.9" "carol@x.com" "campF3" "2024-06-01T00:00:00"
    [("status", Value.bool true), ("open_count", Value.int 5)] "F3" (by decide)

/-! ### Reading back through an update -/

/-- The last binding of a column inside a write payload (later entries of
the payload overwrite earlier ones when applied). -/
def lastValue : FieldMap → String → Option Value
  | [], _ => none
  | (k2, v) :: rest, k =>
    match lastValue rest k with
    | some v2 => some v2
    | none => if k2 = k then some v else none

/-- Reading a column after applying an update: the payload's last binding
for that column wins, otherwise the row's previous value shows through. -/
theorem getField_applyUpdate (d : FieldMap) (r : FieldMap) (k : String) :
    getField (applyUpdate r d) k =
      match lastValue d k with
      | some v => some v
      | none => getField r k := by
  induction d generalizing r with
  | nil => rfl
  | cons kv rest ih =>
    obtain ⟨k2, v⟩ := kv
    have hstep : applyUpdate r ((k2, v) :: rest) = applyUpdate (setField r k2 v) rest := rfl
    rw [hstep, ih]
    cases hlv : lastValue rest k with
    | some v2 => simp [lastValue, hlv]
    | none =>
      by_cases hk : k2 = k
      · subst hk
        simp [lastValue, hlv, getField_setField_self]
      · simp [lastValue, hlv, hk, getField_setField_ne _ _ _ _ (fun he => hk he.symm)]

/-- `first_opened is None or first_opened == ''` holds exactly on a
missing/null column or the empty-string value. -/
theorem isNoneOrEmpty_iff (o : Option Value) :
    isNoneOrEmpty o = true ↔ (o = none ∨ o = some (Value.str "")) := by
  cases o with
  | none => simp [isNoneOrEmpty]
  | some v =>
    cases v with
    | str s => simp [isNoneOrEmpty]
    | bool b => simp [isNoneOrEmpty]
    | int n => simp [isNoneOrEmpty]

/-! ### Claim C5: main-email open on an existing row -/

/-- C5: a main-email open (no follow-up marker) on an existing row sets
`status = true`, `open_count = (existing value or 0) + 1` and
`last_opened_at = now`, and sets `first_opened_at = now` exactly when it
was previously null/missing or the empty string — otherwise
`first_opened_at` reads unchanged. -/
theorem main_update_existing (ip e c now : String) (r : FieldMap)
    (h : detectFollowup c = none) :
    ∃ d, recordOpen ip e c now (some r) = WriteOp.update d ∧
      getField (applyUpdate r d) "status" = some (Value.bool true) ∧
      getField (applyUpdate r d) "open_count"
        = some (Value.int (pyOrZero (getField r "open_count") + 1)) ∧
      getField (applyUpdate r d) "last_opened_at" = some (Value.str now) ∧
      ((getField r "first_opened_at" = none ∨
        getField r "first_opened_at" = some (Value.str "")) →
        getField (applyUpdate r d) "first_opened_at" = some (Value.str now)) ∧
      (¬ (getField r "first_opened_at" = none ∨
          getField r "first_opened_at" = some (Value.str "")) →
        getField (applyUpdate r d) "first_opened_at" = getField r "first_opened_at") := by
  refine ⟨mainUpdateData r now, by simp [recordOpen, h], ?_⟩
  by_cases hf : isNoneOrEmpty (getField r "first_opened_at") = true
  · have hd : mainUpdateData r now = [("status", Value.bool true),
        ("open_count", Value.int (pyOrZero (getField r "open_count") + 1)),
        ("last_opened_at", Value.str now),
        ("first_opened_at", Value.str now)] := by
      simp [mainUpdateData, hf]
    rw [hd]
    refine ⟨?_, ?_, ?_, fun _ => ?_, fun hcon => ?_⟩
    · rw [getField_applyUpdate]; simp [lastValue]
    · rw [getField_applyUpdate]; simp [lastValue]
    · rw [getField_applyUpdate]; simp [lastValue]
    · rw [getField_applyUpdate]; simp [lastValue]
    · exact absurd ((isNoneOrEmpty_iff _).mp hf) hcon
  · have hd : mainUpdateData r now = [("status", Value.bool true),
        ("open_count", Value.int (pyOrZero (getField r "open_count") + 1)),
        ("last_opened_at", Value.str now)] := by
      simp [mainUpdateData, hf]
    rw [hd]
    refine ⟨?_, ?_, ?_, fun hcon => ?_, fun _ => ?_⟩
    · rw [getField_applyUpdate]; simp [lastValue]
    · rw [getField_applyUpdate]; simp [lastValue]
    · rw [getField_applyUpdate]; simp [lastValue]
    · exact absurd ((isNoneOrEmpty_iff _).mpr hcon) hf
    · rw [getField_applyUpdate]; simp [lastValue]

/-- C5 witness: a second main-email open on a row whose `open_count` is 2
and whose `first_opened_at` is already set. -/
theorem main_update_existing_witness :
    ∃ d, recordOpen "8.8.8.8" "dave@x.com" "camp9" "2024-07-01T12:00:00"
        (some [("open_count", Value.int 2),
               ("first_opened_at", Value.str "2024-06-30T00:00:00")])
        = WriteOp.update d ∧
      getField (applyUpdate [("open_count", Value.int 2),
          ("first_opened_at", Value.str "2024-06-30T00:00:00")] d) "status"
        = some (Value.bool true) ∧
      getField (applyUpdate [("open_count", Value.int 2),
          ("first_opened_at", Value.str "2024-06-30T00:00:00")] d) "open_count"
        = some (Value.int (pyOrZero (getField [("open_count", Value.int 2),
            ("first_opened_at", Value.str "2024-06-30T00:00:00")] "open_count") + 1)) ∧
      getField (applyUpdate [("open_count", Value.int 2),
          ("first_opened_at", Value.str "2024-06-30T00:00:00")] d) "last_opened_at"
        = some (Value.str "2024-07-01T12:00:00") ∧
      ((getField [("open_count", Value.int 2),
          ("first_opened_at", Value.str "2024-06-30T00:00:00")] "first_opened_at" = none ∨
        getField [("open_count", Value.int 2),
          ("first_opened_at", Value.str "2024-06-30T00:00:00")] "first_opened_at"
          = some (Value.str "")) →
        getField (applyUpdate [("open_count", Value.int 2),
          ("first_opened_at", Value.str "2024-06-30T00:00:00")] d) "first_opened_at"
          = some (Value.str "2024-07-01T12:00:00")) ∧
      (¬ (getField [("open_count", Value.int 2),
            ("first_opened_at", Value.str "2024-06-30T00:00:00")] "first_opened_at" = none ∨
          getField [("open_count", Value.int 2),
            ("first_opened_at", Value.str "2024-06-30T00:00:00")] "first_opened_at"
            = some (Value.str "")) →
        getField (applyUpdate [("open_count", Value.int 2),
          ("first_opened_at", Value.str "2024-06-30T00:00:00")] d) "first_opened_at"
          = getField [("open_count", Value.int 2),
            ("first_opened_at", Value.str "2024-06-30T00:00:00")] "first_opened_at") :=
  main_update_existing "8.8.8.8" "dave@x.com" "camp9" "2024-07-01T12:00:00"
    [("open_count", Value.int 2), ("first_opened_at", Value.str "2024-06-30T00:00:00")]
    (by decide)

/-! ### Claim C6: main-email open with no prior row -/

/-- C6: with no existing row, a main-email open performs a single insert
whose row has `status = true`, `open_count = 1`, and
`first_opened_at = last_opened_at = now`. -/
theorem main_insert_new (ip e c now : String)
    (h : detectFollowup c = none) :
    ∃ d, recordOpen ip e c now none = WriteOp.insert d ∧
      getField d "email" = some (Value.str e) ∧
      getField d "campaign_id" = some (Value.str (baseCampaignId c)) ∧
      getField d "status" = some (Value.bool true) ∧
      getField d "open_count" = some (Value.int 1) ∧
      getField d "first_opened_at" = some (Value.str now) ∧
      getField d "last_opened_at" = some (Value.str now) ∧
      getField d "first_opened_at" = getField d "last_opened_at" := by
  refine ⟨[("email", Value.str e), ("campaign_id", Value.str (baseCampaignId c)),
      ("status", Value.bool true), ("open_count", Value.int 1),
      ("first_opened_at", Value.str now), ("last_opened_at", Value.str now)],
    by simp [recordOpen, h], ?_, ?_, ?_, ?_, ?_, ?_, ?_⟩ <;> simp [getField]

/-- C6 witness: the first main-email open of alice@x.com on camp1. -/
theorem main_insert_new_witness :
    ∃ d, recordOpen "7.7.7.7" "alice@x.com" "camp1" "2024-01-01T10:00:00" none
        = WriteOp.insert d ∧
      getField d "email" = some (Value.str "alice@x.com") ∧
      getField d "campaign_id" = some (Value.str (baseCampaignId "camp1")) ∧
      getField d "status" = some (Value.bool true) ∧
      getField d "open_count" = some (Value.int 1) ∧
      getField d "first_opened_at" = some (Value.str "2024-01-01T10:00:00") ∧
      getField d "last_opened_at" = some (Value.str "2024-01-01T10:00:00") ∧
      getField d "first_opened_at" = getField d "last_opened_at" :=
  main_insert_new "7.7.7.7" "alice@x.com" "camp1" "2024-01-01T10:00:00" (by decide)

/-! ### Claim C7: the tracking endpoint always answers the fixed pixel -/

/-- The HTTP response of the tracking route: a byte body and a mimetype. -/
structure HttpResponse where
  body : List Nat
  mimetype : String
deriving DecidableEq

/-- The fixed 1x1 transparent GIF (app.py lines 120-123, byte for byte). -/
def pixelData : List Nat :=
  [0x47, 0x49, 0x46, 0x38, 0x39, 0x61, 0x01, 0x00, 0x01, 0x00, 0x80, 0x00,
   0x00, 0xff, 0xff, 0xff, 0x00, 0x00, 0x00,
   0x2c, 0x00, 0x00, 0x00, 0x00, 0x01, 0x00, 0x01, 0x00, 0x00, 0x02, 0x02,
   0x4c, 0x01, 0x00, 0x3b]

/-- The tracking route handler (app.py lines 124-219): the whole recorder
runs inside `try`; an exception is logged and swallowed, and the single
`return Response(pixel_data, mimetype='image/gif')` after the handler is
executed in either case. -/
def trackHandler (outcome : Except String WriteOp) : HttpResponse :=
  match outcome with
  | Except.ok _ => { body := pixelData, mimetype := "image/gif" }
  | Except.error _ => { body := pixelData, mimetype := "image/gif" }

/-- C7: whatever the recorder outcome — a successful update, a successful
insert, or any raised error (store unreachable included) — the response is
the identical fixed GIF byte sequence with the image content type; two
requests with different outcomes get the very same response. -/
theorem track_response_constant (o o2 : Except String WriteOp) :
    trackHandler o = { body := pixelData, mimetype := "image/gif" } ∧
    trackHandler o = trackHandler o2 := by
  cases o <;> cases o2 <;> exact ⟨rfl, rfl⟩

/-! ### Claim C8: priority order of follow-up detection -/

/-- The fixed scan order of the markers, most significant first. -/
def markerOrder : List (Char × String) :=
  [('1', "F1"), ('2', "F2"), ('3', "F3"), ('4', "F4")]

/-- Modelled from the spec: "scan campaign_id for substrings F1, F2, F3,
F4 in that priority order; first match wins" — the first marker of the
priority list that occurs in the campaign id. -/
def specPriorityFirst (c : String) : Option String :=
  (markerOrder.find? (fun m => containsMarker c m.1)).map Prod.snd

/-- Number of distinct follow-up markers occurring in the campaign id. -/
def markerCount (c : String) : Nat :=
  (markerOrder.filter (fun m => containsMarker c m.1)).length

set_option linter.unusedVariables false in
/-- C8: when the campaign id contains more than one follow-up marker, the
detected followup_type is the first occurring marker in the priority order
F1, F2, F3, F4 — the scan stops at the first hit and later markers are
ignored, producing a value rather than an error (the equality in fact holds
for every campaign id; the multiplicity hypothesis restates the claim's
premise). -/
theorem detect_priority_first (c : String) (h : 1 < markerCount c) :
    detectFollowup c = specPriorityFirst c := by
  unfold detectFollowup specPriorityFirst markerOrder
  cases h1 : containsMarker c '1' <;> cases h2 : containsMarker c '2' <;>
    cases h3 : containsMarker c '3' <;> cases h4 : containsMarker c '4' <;>
      simp [h1, h2, h3, h4, List.find?]

/-- C8 witness: "aF2bF3" contains two markers and resolves to "F2". -/
theorem detect_priority_first_witness :
    1 < markerCount "aF2bF3" ∧ detectFollowup "aF2bF3" = specPriorityFirst "aF2bF3" :=
  ⟨by decide, detect_priority_first "aF2bF3" (by decide)⟩

/-! ### Claim C10: case sensitivity of detection and stripping -/

/-- A two-character pattern occurs iff the list splits around it. -/
theorem occurs2_iff (a b : Char) (s : List Char) :
    occurs2 a b s = true ↔ ∃ l r, s = l ++ a :: b :: r := by
  constructor
  · induction s with
    | nil => intro h; cases h
    | cons c t ih =>
      intro h
      cases t with
      | nil => cases h
      | cons d t2 =>
        rw [occurs2, Bool.or_eq_true] at h
        rcases h with h | h
        · rw [Bool.and_eq_true, decide_eq_true_iff, decide_eq_true_iff] at h
          exact ⟨[], t2, by simp [h.1, h.2]⟩
        · obtain ⟨l, r, heq⟩ := ih h
          exact ⟨c :: l, r, by rw [List.cons_append, heq]⟩
  · rintro ⟨l, r, rfl⟩
    induction l with
    | nil => simp [occurs2]
    | cons c l2 ih =>
      cases l2 with
      | nil => simp [occurs2]
      | cons d l3 =>
        simp only [List.cons_append] at ih ⊢
        show ((c = a && d = b) || occurs2 a b (d :: (l3 ++ a :: b :: r))) = true
        simp [ih]

/-- A pattern whose first character does not satisfy `p` survives
`dropWhile p`. -/
theorem occurs2_dropWhile (p : Char → Bool) (a b : Char) (hpa : p a = false)
    (s : List Char) (h : occurs2 a b s = true) :
    occurs2 a b (s.dropWhile p) = true := by
  obtain ⟨l, r, rfl⟩ := (occurs2_iff a b s).mp h
  clear h
  induction l with
  | nil =>
    rw [List.nil_append, List.dropWhile_cons, if_neg (by simp [hpa])]
    simp [occurs2]
  | cons c l2 ih =>
    rw [List.cons_append, List.dropWhile_cons]
    by_cases hc : p c = true
    · rw [if_pos hc]; exact ih
    · rw [if_neg hc]
      exact (occurs2_iff a b _).mpr ⟨c :: l2, r, rfl⟩

/-- A pattern whose second character does not satisfy `p` survives
`dropTrailing p`. -/
theorem occurs2_dropTrailing (p : Char → Bool) (a b : Char) (hpb : p b = false)
    (s : List Char) (h : occurs2 a b s = true) :
    occurs2 a b (dropTrailing p s) = true := by
  obtain ⟨l, r, rfl⟩ := (occurs2_iff a b s).mp h
  have h2 : occurs2 b a ((l ++ a :: b :: r).reverse) = true := by
    refine (occurs2_iff b a _).mpr ⟨r.reverse, l.reverse, ?_⟩
    simp
  have h3 := occurs2_dropWhile p b a hpb _ h2
  obtain ⟨l2, r2, heq⟩ := (occurs2_iff b a _).mp h3
  unfold dropTrailing
  rw [heq]
  refine (occurs2_iff a b _).mpr ⟨r2.reverse, l2.reverse, ?_⟩
  simp

/-- Under `hasMarker s = false`, each of the four containment tests is
false. -/
theorem hasMarker_false_elim (s : String) (hm : hasMarker s = false) :
    containsMarker s '1' = false ∧ containsMarker s '2' = false ∧
    containsMarker s '3' = false ∧ containsMarker s '4' = false := by
  rw [hasMarker] at hm
  simp only [Bool.or_eq_false_iff] at hm
  exact ⟨hm.1.1.1, hm.1.1.2, hm.1.2, hm.2⟩

/-- C10: detection and stripping are case-sensitive.  If the campaign id
contains none of the uppercase markers F1..F4, the request is treated as a
main-email open (`followup_type = None`), and every lowercase marker
f1..f4 occurring in the campaign id still occurs, untouched, in the
derived base_campaign_id. -/
theorem lowercase_markers_untouched (s : String) (hm : hasMarker s = false) :
    detectFollowup s = none ∧
    (∀ d, d ∈ ['1', '2', '3', '4'] → occurs2 'f' d s.data = true →
      occurs2 'f' d (baseCampaignId s).data = true) := by
  have h4 := hasMarker_false_elim s hm
  constructor
  · simp [detectFollowup, h4.1, h4.2.1, h4.2.2.1, h4.2.2.2]
  · intro d hd hocc
    have hd4 : d = '1' ∨ d = '2' ∨ d = '3' ∨ d = '4' := by simpa using hd
    have hrm : removeMarkers s.data = s.data := by
      rw [removeMarkers,
        replace2_of_not_occurs _ _ _ h4.1,
        replace2_of_not_occurs _ _ _ h4.2.1,
        replace2_of_not_occurs _ _ _ h4.2.2.1,
        replace2_of_not_occurs _ _ _ h4.2.2.2]
    show occurs2 'f' d (baseCampaignIdL s.data) = true
    rw [baseCampaignIdL, hrm]
    unfold rstripSlash stripWs
    apply occurs2_dropTrailing _ _ _ (by rcases hd4 with h | h | h | h <;> subst h <;> decide)
    apply occurs2_dropTrailing _ _ _ (by rcases hd4 with h | h | h | h <;> subst h <;> decide)
    exact occurs2_dropWhile _ _ _ (by decide) _ hocc

/-- C10 witness: "campf1" (lowercase marker only) is a main-email open and
keeps "f1" in its base id. -/
theorem lowercase_markers_untouched_witness :
    detectFollowup "campf1" = none ∧
    (∀ d, d ∈ ['1', '2', '3', '4'] → occurs2 'f' d ("campf1" : String).data = true →
      occurs2 'f' d (baseCampaignId "campf1").data = true) :=
  lowercase_markers_untouched "campf1" (by decide)

/-! ### Claim C9: the dashboard timestamp formatter

The formatter `fmt` (app.py lines 304-312 and 343-351) delegates parsing to
the standard library's `datetime.fromisoformat`.  That collaborator is
modelled below for the grammar it accepts (`YYYY-MM-DD`, optionally a
one-character separator and `HH[:MM[:SS[.fff|.ffffff]]]`, optionally a
`±HH:MM[:SS[.fff|.ffffff]]` offset, with calendar and range validation);
the fraction is accepted and discarded since the output pattern
`%Y-%m-%d %H:%M:%S` never shows it. -/

/-- `ts.replace('Z', '+00:00')` — every `Z` is substituted. -/
def zSub (s : List Char) : List Char :=
  (s.map (fun c => if c = 'Z' then ['+', '0', '0', ':', '0', '0'] else [c])).flatten

/-- Value of a decimal digit. -/
def digitVal (c : Char) : Option Nat :=
  if '0' ≤ c ∧ c ≤ '9' then some (c.toNat - '0'.toNat) else none

/-- Read exactly two digits. -/
def read2 : List Char → Option (Nat × List Char)
  | a :: b :: rest =>
    match digitVal a, digitVal b with
    | some x, some y => some (10 * x + y, rest)
    | _, _ => none
  | _ => none

/-- Read exactly four digits. -/
def read4 : List Char → Option (Nat × List Char)
  | a :: b :: c :: d :: rest =>
    match digitVal a, digitVal b, digitVal c, digitVal d with
    | some x, some y, some z, some w =>
      some (1000 * x + 100 * y + 10 * z + w, rest)
    | _, _, _, _ => none
  | _ => none

/-- Consume one expected character. -/
def expectChar (ch : Char) : List Char → Option (List Char)
  | c :: rest => if c = ch then some rest else none
  | [] => none

/-- Consume exactly `n` digits. -/
def readNDigits : Nat → List Char → Option (List Char)
  | 0, rest => some rest
  | n + 1, c :: rest =>
    if (digitVal c).isSome then readNDigits n rest else none
  | _ + 1, [] => none

/-- Optional fractional part: a dot followed by exactly six or exactly
three digits (the two widths `isoformat()` emits); the digits are consumed
and discarded. -/
def parseFrac (s : List Char) : Option (List Char) :=
  match s with
  | '.' :: rest =>
    match readNDigits 6 rest with
    | some r2 => some r2
    | none =>
      match readNDigits 3 rest with
      | some r2 => some r2
      | none => none
  | _ => some s

/-- UTC-offset suffix `±HH:MM[:SS[.frac]]`; must consume the whole rest and
denote strictly less than 24 hours. -/
def parseOffsetSecs (s : List Char) : Option Int :=
  match s with
  | sign :: rest =>
    if sign = '+' ∨ sign = '-' then
      match read2 rest with
      | none => none
      | some (oh, r1) =>
        match expectChar ':' r1 with
        | none => none
        | some r2 =>
          match read2 r2 with
          | none => none
          | some (om, r3) =>
            let finish : Nat → Option Int := fun osec =>
              let total : Nat := oh * 3600 + om * 60 + osec
              if total < 86400 then
                some (if sign = '-' then -(total : Int) else (total : Int))
              else none
            match r3 with
            | [] => finish 0
            | ':' :: r4 =>
              match read2 r4 with
              | none => none
              | some (os, r5) =>
                match parseFrac r5 with
                | some [] => finish os
                | _ => none
            | _ => none
    else none
  | [] => none

/-- A parsed (naive or aware) datetime, microseconds discarded. -/
structure PyDateTime where
  year : Nat
  month : Nat
  day : Nat
  hour : Nat
  minute : Nat
  second : Nat
  offsetSecs : Option Int
deriving DecidableEq

/-- Length of a month, with Gregorian leap years. -/
def daysInMonth (y m : Nat) : Nat :=
  if m = 2 then
    (if (y % 4 = 0 ∧ y % 100 ≠ 0) ∨ y % 400 = 0 then 29 else 28)
  else if m = 4 ∨ m = 6 ∨ m = 9 ∨ m = 11 then 30
  else 31

/-- Range-check the time components (as `datetime.time` would). -/
def mkPyDateTime (y mo dy hh mi ss : Nat) (off : Option Int) :
    Option PyDateTime :=
  if hh ≤ 23 ∧ mi ≤ 59 ∧ ss ≤ 59 then some ⟨y, mo, dy, hh, mi, ss, off⟩
  else none

/-- Time-of-day part: `HH[:MM[:SS[.frac]]][±HH:MM[:SS[.frac]]]`, consuming
the whole input. -/
def parseTimePart (y mo dy : Nat) (s : List Char) : Option PyDateTime :=
  match read2 s with
  | none => none
  | some (hh, r1) =>
    match r1 with
    | [] => mkPyDateTime y mo dy hh 0 0 none
    | ':' :: r2 =>
      (match read2 r2 with
       | none => none
       | some (mi, r3) =>
         match r3 with
         | [] => mkPyDateTime y mo dy hh mi 0 none
         | ':' :: r4 =>
           (match read2 r4 with
            | none => none
            | some (ss, r5) =>
              match parseFrac r5 with
              | none => none
              | some [] => mkPyDateTime y mo dy hh mi ss none
              | some r6 =>
                match parseOffsetSecs r6 with
                | some off => mkPyDateTime y mo dy hh mi ss (some off)
                | none => none)
         | _ =>
           match parseOffsetSecs r3 with
           | some off => mkPyDateTime y mo dy hh mi 0 (some off)
           | none => none)
    | _ =>
      match parseOffsetSecs r1 with
      | some off => mkPyDateTime y mo dy hh 0 0 (some off)
      | none => none

/-- Modelled `datetime.fromisoformat`: `YYYY-MM-DD` with calendar
validation, optionally one separator character and a time part. -/
def fromisoformat (s : List Char) : Option PyDateTime :=
  match read4 s with
  | none => none
  | some (y, r1) =>
    match expectChar '-' r1 with
    | none => none
    | some r2 =>
      match read2 r2 with
      | none => none
      | some (mo, r3) =>
        match expectChar '-' r3 with
        | none => none
        | some r4 =>
          match read2 r4 with
          | none => none
          | some (dy, r5) =>
            if 1 ≤ y ∧ 1 ≤ mo ∧ mo ≤ 12 ∧ 1 ≤ dy ∧ dy ≤ daysInMonth y mo then
              match r5 with
              | [] => some ⟨y, mo, dy, 0, 0, 0, none⟩
              | _ :: r6 => parseTimePart y mo dy r6
            else none

/-- Two-digit zero-padded decimal. -/
def pad2 (n : Nat) : String :=
  if n < 10 then "0" ++ toString n else toString n

/-- Four-digit zero-padded decimal. -/
def pad4 (n : Nat) : String :=
  if n < 10 then "000" ++ toString n
  else if n < 100 then "00" ++ toString n
  else if n < 1000 then "0" ++ toString n
  else toString n

/-- `dt.strftime('%Y-%m-%d %H:%M:%S')`: the naive components, zero padded;
any offset is ignored by this pattern. -/
def strftimeYmdHMS (d : PyDateTime) : String :=
  pad4 d.year ++ "-" ++ pad2 d.month ++ "-" ++ pad2 d.day ++ " " ++
  pad2 d.hour ++ ":" ++ pad2 d.minute ++ ":" ++ pad2 d.second

/-- The dashboard cell formatter `fmt` (app.py lines 304-312, 343-351):
falsy input (absent or empty) renders an empty cell; otherwise parse after
the `Z` substitution and reformat, and on any parse failure fall back to
the raw string. -/
def fmtTimestamp (ts : Option String) : String :=
  match ts with
  | none => ""
  | some s =>
    if s = "" then ""
    else
      match fromisoformat (zSub s.data) with
      | some dt => strftimeYmdHMS dt
      | none => s

/-- C9: the formatter renders an empty cell for an absent (or empty,
falsy) value; for any string the parser rejects it returns the raw string
unchanged; for any string the parser accepts it returns the
`YYYY-MM-DD HH:MM:SS` rendering; in particular "2024-01-01T10:00:00Z"
formats to "2024-01-01 10:00:00" and "not-a-date" renders unchanged. -/
theorem fmt_timestamp_spec :
    fmtTimestamp none = "" ∧
    fmtTimestamp (some "") = "" ∧
    (∀ s : String, fromisoformat (zSub s.data) = none → fmtTimestamp (some s) = s) ∧
    (∀ (s : String) (dt : PyDateTime), fromisoformat (zSub s.data) = some dt →
      fmtTimestamp (some s) = strftimeYmdHMS dt) ∧
    fmtTimestamp (some "2024-01-01T10:00:00Z") = "2024-01-01 10:00:00" ∧
    fmtTimestamp (some "not-a-date") = "not-a-date" := by
  refine ⟨rfl, rfl, ?_, ?_, by decide, by decide⟩
  · intro s h
    by_cases hs : s = ""
    · subst hs; rfl
    · simp [fmtTimestamp, hs, h]
  · intro s dt h
    by_cases hs : s = ""
    · subst hs
      rw [show fromisoformat (zSub ("" : String).data) = none from rfl] at h
      cases h
    · simp [fmtTimestamp, hs, h]

/-- C9 witness: the fallback clause applied to a concrete malformed string
and the success clause applied to a concrete parseable string. -/
theorem fmt_timestamp_spec_witness :
    fmtTimestamp (some "13/01/2024") = "13/01/2024" ∧
    fmtTimestamp (some "2024-03-05T07:08:09") = strftimeYmdHMS ⟨2024, 3, 5, 7, 8, 9, none⟩ :=
  ⟨fmt_timestamp_spec.2.2.1 "13/01/2024" (by decide),
   fmt_timestamp_spec.2.2.2.1 "2024-03-05T07:08:09" ⟨2024, 3, 5, 7, 8, 9, none⟩ (by decide)⟩
